import Mathlib

/-!
Verification development for the mushroom environmental-control system
(`app.py`, `database_service.py`, `config.py`).

The Python source is shallowly embedded: dictionaries become structures,
MongoDB collections become lists kept in insertion (natural) order,
`datetime.utcnow()` instants become natural-number clocks, Python floats
become rationals, and every fallible external call (MongoDB insert, sensor
read) is given its outcome as an explicit argument, so each method becomes a
total Lean function from the old state and the environment's outcomes to the
new state and the returned value.

One behavior is central to `app.py`'s database layer: PyMongo `Database`
objects forbid truth-value testing (`bool(db)` raises
`NotImplementedError`; one must compare with `None`). `app.py` truth-tests
its handles (`if self.local_mongo_db:`, `if not self.atlas_mongo_db or
not self.local_mongo_db:`), so with a real database configured those tests
raise and the guarded bodies never run; the embedding models each such test
by its actual outcome. `database_service.py` compares with `is None` /
`is not None` and is unaffected.
-/

namespace Mushroom

/-- One observation's sensor fields, as carried in the `data` dictionaries of
`app.py` (`SensorService.current_data` and the documents saved to MongoDB). -/
structure Reading where
  temperature : ℚ
  humidity : ℚ
  co2 : ℤ
  light_intensity : ℤ
  water_level : ℚ
deriving Repr, DecidableEq

/-- `DEVICE_ID = "raspberry-pi-01"` in `app.py`. -/
def DEVICE_ID : String := "raspberry-pi-01"

/-- `MUSHROOM_CONFIG['optimal_ranges']['humidity']['min']` in `config.py`. -/
def humidity_min : ℚ := 80

/-- `MUSHROOM_CONFIG['optimal_ranges']['humidity']['max']` in `config.py`. -/
def humidity_max : ℚ := 95

/-- The literal `15` that `auto_control_environment` compares `water_level`
against (`config.py` lists the same value as the water-level critical-low
alert threshold). -/
def critical_low_water : ℚ := 15

/-- `MUSHROOM_CONFIG['control_settings']['fogger_duration']` in `config.py`. -/
def fogger_duration : ℕ := 30

/-- `light_schedule['on_hour']` in `config.py`. -/
def light_on_hour : ℕ := 6

/-- `light_schedule['off_hour']` in `config.py`. -/
def light_off_hour : ℕ := 18

/-- `SENSOR_CONFIG['read_interval']` in `config.py`, the sleep after a
successful monitor cycle. -/
def SENSOR_READ_INTERVAL : ℕ := 10

/-- Python's `round(x, 1)`: one decimal digit. Python rounds exact halves to
even; no statement below evaluates the function at such a tie, so the
round-half-up `round` of the library is used. -/
def round1 (x : ℚ) : ℚ := ((round (10 * x) : ℤ) : ℚ) / 10

/-- Python's `int(x)`: truncation toward zero. -/
def pyInt (x : ℚ) : ℤ := if 0 ≤ x then ⌊x⌋ else ⌈x⌉

namespace App

/-- A document of the local `readings` collection of `app.py`'s
`DatabaseService`: the reading plus `device_id`, `server_timestamp` and the
`synced_to_atlas` flag, keyed by its `_id` (`rid`). -/
structure LocalRecord where
  rid : ℕ
  device_id : String
  reading : Reading
  server_timestamp : ℕ
  synced_to_atlas : Bool
deriving Repr, DecidableEq

/-- The document shape of the Atlas `readings` collection (a local document
with `_id` and `synced_to_atlas` popped — the shape `app.py`'s unreachable
insert paths would write, and the shape of whatever already sits there). -/
structure AtlasRecord where
  device_id : String
  reading : Reading
  server_timestamp : ℕ
deriving Repr, DecidableEq

/-- A document of the in-memory `simulation_data` list (the fallback taken
when local MongoDB is unreachable); its `_id` is `len(simulation_data) + 1`
and no `synced_to_atlas` key is ever set on it. -/
structure SimRecord where
  rid : ℕ
  device_id : String
  reading : Reading
  server_timestamp : ℕ
deriving Repr, DecidableEq

/-- A document as returned by the query methods (after `_id` stringification
and timestamp serialization, neither of which changes order or emptiness):
`synced_to_atlas` would be present on local documents and is absent on
simulation ones, the only documents the queries actually return. -/
structure Doc where
  device_id : String
  reading : Reading
  server_timestamp : ℕ
  synced_to_atlas : Option Bool
deriving Repr, DecidableEq

/-- The state of `app.py`'s `DatabaseService`: the two optional backends
(collections in insertion order), the `using_atlas` flag, whether the
`simulation_data` attribute exists (it is created exactly when local MongoDB
setup fails) with its list, and the next local `_id`. -/
structure DBState where
  local_mongo_db : Option (List LocalRecord)
  atlas_mongo_db : Option (List AtlasRecord)
  using_atlas : Bool
  has_simulation : Bool
  simulation_data : List SimRecord
  next_id : ℕ
deriving Repr, DecidableEq

/-- The local collection, empty when no local backend is configured. -/
def localRecsOf (s : DBState) : List LocalRecord := s.local_mongo_db.getD []

/-- `update_one({'_id': rid}, {'$set': {'synced_to_atlas': True}})`: set the
flag of the record with the given `_id` (ids are unique per collection).
This is the mark-replicated operation itself; its call sites in `app.py`
sit inside the unreachable local-insert branch of `save_reading` and the
unreachable body of `sync_offline_data`. -/
def markSyncedById (recs : List LocalRecord) (rid : ℕ) : List LocalRecord :=
  recs.map fun rec =>
    if rec.rid = rid then { rec with synced_to_atlas := true } else rec

/-- The exception PyMongo raises when a `Database` object is tested for
truth value: since PyMongo 3.0, `Database.__bool__` raises
`NotImplementedError` ("Database objects do not implement truth value
testing or bool(). Please compare with None instead"). `app.py` tests its
database handles with `if self.local_mongo_db:` and
`if not self.atlas_mongo_db or ...`, so those tests raise whenever the
handle is a real `Database` (modeled `some`) and are falsy only for `None`
(modeled `none`). `database_service.py` compares with `is None` and is
unaffected. -/
def pymongoBoolError : String :=
  "NotImplementedError: Database objects do not implement truth value testing"

/-- The unsynced documents of a local collection in insertion order — the
selection `find({'synced_to_atlas': {'$ne': True}})` in the body of
`sync_offline_data` would read. In the current `app.py` that body is
unreachable (the guard above it raises first), so this definition serves to
state which records remain unsynced. -/
def syncOrder (recs : List LocalRecord) : List LocalRecord :=
  recs.filter fun rec => !rec.synced_to_atlas

/-- `DatabaseService.sync_offline_data` of `app.py`. Its first statement is
`if not self.atlas_mongo_db or not self.local_mongo_db: return`, which sits
outside the method's `try`. With no Atlas handle, `not None` is true and the
method returns at once having done nothing. With an Atlas handle,
`not self.atlas_mongo_db` truth-tests a `Database` and raises
`NotImplementedError`, which propagates to the caller — so the fetch,
insert and `update_many` code below the guard never runs and the service
state is unchanged either way. The second component is the exception the
method raises, if any. -/
def sync_offline_data (s : DBState) : DBState × Option String :=
  match s.atlas_mongo_db with
  | none => (s, none)
  | some _ => (s, some pymongoBoolError)

/-- `DatabaseService.save_reading` of `app.py`. `now` is
`datetime.utcnow()`. After stamping the dictionary, the method tests
`if self.local_mongo_db:`. With a local `Database` handle that test raises
`NotImplementedError`; the method's own catch-all `except` logs and returns
`None`, so nothing is inserted anywhere, nothing is marked, and the state
(including `using_atlas`) is unchanged — the local-insert and
Atlas-forwarding code inside that branch is unreachable. With no local
handle (`None` is falsy) the `else` branch runs: the document goes to
`simulation_data` with `_id = len + 1` when that attribute exists, else
nothing is saved and `None` is returned. -/
def save_reading (s : DBState) (r : Reading) (now : ℕ) :
    DBState × Option String :=
  match s.local_mongo_db with
  | some _ => (s, none)
  | none =>
    if s.has_simulation then
      let sid := s.simulation_data.length + 1
      ({ s with
          simulation_data := s.simulation_data ++ [⟨sid, DEVICE_ID, r, now⟩] },
       some (toString sid))
    else (s, none)

/-- Python's `sorted(..., key=server_timestamp, reverse=True)` on the
simulation list. -/
def sortSimDesc (recs : List SimRecord) : List SimRecord :=
  List.insertionSort (fun a b => b.server_timestamp ≤ a.server_timestamp) recs

/-- View a simulation document as a returned one (no `synced_to_atlas` key
is ever set on simulation documents). -/
def simToDoc (rec : SimRecord) : Doc :=
  ⟨rec.device_id, rec.reading, rec.server_timestamp, none⟩

/-- `DatabaseService.get_latest_readings` of `app.py`. The body tests
`if self.local_mongo_db:`; with a local `Database` handle that raises
`NotImplementedError`, the catch-all `except` logs and returns `[]`, so the
filtered descending-sorted local result in that branch is never produced.
With no local handle, the simulation branch sorts `simulation_data` by
`server_timestamp` descending and takes `limit`; with no storage at all it
returns `[]`. `fetchOk = false` stands for any other exception raised
inside the body (also caught, returning `[]`). -/
def get_latest_readings (s : DBState) (fetchOk : Bool) (limit : ℕ) :
    List Doc :=
  if fetchOk = false then []
  else
    match s.local_mongo_db with
    | some _ => []
    | none =>
      if s.has_simulation then
        ((sortSimDesc s.simulation_data).take limit).map simToDoc
      else []

/-- `DatabaseService.get_historical_data` of `app.py`. Like
`get_latest_readings`, the body tests `if self.local_mongo_db:`: with a
local `Database` handle it raises and the `except` returns `[]`, and with
no local handle the `else` branch returns `[]` — so this query returns `[]`
for every store state (there is no simulation branch here). `now`, `hours`
and `limit` are the query arguments; none of them can influence the result. -/
def get_historical_data (s : DBState) (fetchOk : Bool)
    (_now _hours _limit : ℕ) : List Doc :=
  if fetchOk = false then []
  else
    match s.local_mongo_db with
    | some _ => []
    | none => []

end App

namespace DBSvc

/-- A document in `database_service.py`: the caller's data plus
`server_timestamp` — this module sets no sync flag on saved documents. -/
structure SRec where
  reading : Reading
  server_timestamp : ℕ
deriving Repr, DecidableEq

/-- The state of `database_service.py`'s `DatabaseService`. -/
structure State where
  local_db : Option (List SRec)
  atlas_db : Option (List SRec)
  using_atlas : Bool
deriving Repr, DecidableEq

/-- `DatabaseService.save_reading` of `database_service.py`: try Atlas first
when `using_atlas` and Atlas is configured — on failure log and set
`using_atlas = False`; then always insert into local MongoDB, returning
whether the local insert succeeded (`localOk` is its outcome, `atlasOk` the
Atlas one). -/
def save_reading (s : State) (r : Reading) (now : ℕ)
    (atlasOk localOk : Bool) : State × Bool :=
  let newRec : SRec := ⟨r, now⟩
  let s1 :=
    if s.using_atlas && s.atlas_db.isSome then
      if atlasOk then { s with atlas_db := some (s.atlas_db.getD [] ++ [newRec]) }
      else { s with using_atlas := false }
    else s
  match s1.local_db with
  | some l =>
    if localOk then ({ s1 with local_db := some (l ++ [newRec]) }, true)
    else (s1, false)
  | none => (s1, false)

/-- `db = self.atlas_db if (self.using_atlas and self.atlas_db is not None)
else self.local_db`, shared by both query methods. -/
def pickDb (s : State) : Option (List SRec) :=
  if s.using_atlas && s.atlas_db.isSome then s.atlas_db else s.local_db

/-- Stable sort by `server_timestamp` descending. -/
def sortDesc (recs : List SRec) : List SRec :=
  List.insertionSort (fun a b => b.server_timestamp ≤ a.server_timestamp) recs

/-- Stable sort by `server_timestamp` ascending. -/
def sortAsc (recs : List SRec) : List SRec :=
  List.insertionSort (fun a b => a.server_timestamp ≤ b.server_timestamp) recs

/-- `DatabaseService.get_latest_readings` of `database_service.py`: sort
descending, take `limit`; `[]` when no backend is picked or on any caught
exception (`fetchOk = false`). -/
def get_latest_readings (s : State) (fetchOk : Bool) (limit : ℕ) :
    List SRec :=
  if fetchOk = false then []
  else
    match pickDb s with
    | some recs => (sortDesc recs).take limit
    | none => []

/-- `DatabaseService.get_historical_data` of `database_service.py`: filter
to the last `hours` hours, sort `server_timestamp` ascending (no limit);
`[]` when no backend is picked or on any caught exception. -/
def get_historical_data (s : State) (fetchOk : Bool) (now hours : ℕ) :
    List SRec :=
  if fetchOk = false then []
  else
    match pickDb s with
    | some recs =>
      sortAsc (recs.filter fun rec =>
        decide (now - hours * 3600 ≤ rec.server_timestamp))
    | none => []

end DBSvc

namespace Sensor

/-- The values one `read_sensors` pass obtains from the SCD40 when
`data_ready` holds and none of temperature/humidity/CO2 is `None`. -/
structure Scd40Sample where
  temperature : ℚ
  humidity : ℚ
  co2 : ℤ
deriving Repr, DecidableEq

/-- The physical outcomes of one `read_sensors` pass. `none` for a sensor
stands for every path on which the code leaves the field untouched:
the sensor object is `None`, data is not ready, the driver returns `None`,
or the read raises (every such path is caught and logged). -/
structure RawSensors where
  scd40 : Option Scd40Sample
  bh1750 : Option ℚ
  ultrasonic_distance : Option ℚ
deriving Repr, DecidableEq

/-- `SENSOR_CONFIG['calibration_offsets']` in `config.py`. -/
def calibration_temperature : ℚ := 0

/-- Humidity calibration offset (`config.py`). -/
def calibration_humidity : ℚ := 0

/-- CO2 calibration offset (`config.py`). -/
def calibration_co2 : ℤ := 0

/-- Light-intensity calibration offset (`config.py`). -/
def calibration_light_intensity : ℤ := 0

/-- Water-level calibration offset (`config.py`). -/
def calibration_water_level : ℚ := 0

/-- `SENSOR_CONFIG['reservoir_config']['sensor_height_cm']`. -/
def sensor_height_cm : ℚ := 35

/-- `SENSOR_CONFIG['reservoir_config']['max_depth_cm']`. -/
def max_depth_cm : ℚ := 30

/-- `SENSOR_CONFIG['reservoir_config']['min_depth_cm']`. -/
def min_depth_cm : ℚ := 5

/-- `SensorService.calculate_water_level_percentage`: `75.0` when the
distance is `None`, else clamp the depth to `[0, max_depth]` and convert to
a percentage of the usable band, rounded to one decimal. -/
def calculate_water_level_percentage : Option ℚ → ℚ
  | none => 75
  | some distance_cm =>
    let water_depth := sensor_height_cm - distance_cm
    let water_depth := max 0 (min max_depth_cm water_depth)
    if water_depth ≤ min_depth_cm then 0
    else round1 (((water_depth - min_depth_cm) /
      (max_depth_cm - min_depth_cm)) * 100)

/-- The `SensorService` state relevant to readings: `current_data`,
initialized in `__init__` to the default values and — in the source as it
stands — never assigned again. -/
structure SensorState where
  current_data : Reading
deriving Repr, DecidableEq

/-- The defaults `SensorService.__init__` puts into `current_data`
("Default realistic values"). -/
def initial_current_data : Reading :=
  { temperature := 22, humidity := 65, co2 := 400,
    light_intensity := 500, water_level := 75 }

/-- `SensorService.read_sensors` on the real-hardware path:
`data = self.current_data.copy()`, then each available sensor overwrites its
fields (with calibration offsets applied); a failed or absent sensor leaves
the copied value in place. The function is total: every hardware fault is a
`none` in `raw`, matching the `try/except` blocks around each read. -/
def read_sensors (st : SensorState) (raw : RawSensors) : Reading :=
  let data := st.current_data
  let data :=
    match raw.scd40 with
    | some s =>
      { data with
        temperature := round1 (s.temperature + calibration_temperature),
        humidity := round1 (s.humidity + calibration_humidity),
        co2 := s.co2 + calibration_co2 }
    | none => data
  let data :=
    match raw.bh1750 with
    | some lux =>
      { data with
        light_intensity := pyInt (lux + (calibration_light_intensity : ℚ)) }
    | none => data
  let data :=
    match raw.ultrasonic_distance with
    | some d =>
      { data with
        water_level :=
          calculate_water_level_percentage (some d) + calibration_water_level }
    | none => data
  data

/-- One acquisition as the running program performs it: `read_sensors`
builds its result from a copy of `current_data`, and nothing in the source
writes the result back, so the stored `current_data` is returned unchanged. -/
def sensorCycle (st : SensorState) (raw : RawSensors) :
    SensorState × Reading :=
  (st, read_sensors st raw)

end Sensor

namespace Control

/-- The actuator state held by `GPIOControlService`. -/
structure GPIOState where
  fogger_active : Bool
  fan_speed : ℤ
  heater_active : Bool
  lights_active : Bool
deriving Repr, DecidableEq

/-- The actuator commands `auto_control_environment` issues through
`control_fogger`, `control_fan` and `control_lights`. -/
inductive Command where
  | foggerOn (duration : ℕ)
  | foggerOff
  | fanSet (speed_percent : ℤ)
  | lightsSet (activate : Bool)
deriving Repr, DecidableEq

/-- `GPIOControlService.control_fogger`'s effect on the held state. -/
def control_fogger (g : GPIOState) (activate : Bool) : GPIOState :=
  { g with fogger_active := activate }

/-- `GPIOControlService.control_fan`'s effect on the held state. -/
def control_fan (g : GPIOState) (speed_percent : ℤ) : GPIOState :=
  { g with fan_speed := speed_percent }

/-- `GPIOControlService.control_lights`'s effect on the held state. -/
def control_lights (g : GPIOState) (activate : Bool) : GPIOState :=
  { g with lights_active := activate }

/-- The first block of `auto_control_environment`: when `water_level < 15`
and the fogger is active, `control_fogger(False)` is called. -/
def waterStep (g : GPIOState) (water_level : ℚ) : GPIOState × List Command :=
  if water_level < critical_low_water then
    if g.fogger_active then (control_fogger g false, [Command.foggerOff])
    else (g, [])
  else (g, [])

/-- The second block: `control_fogger(True, fogger_duration)` when humidity
is more than 5 below `humidity_min`, the fogger is off, and
`water_level > 20`. -/
def foggerStep (g : GPIOState) (humidity water_level : ℚ) :
    GPIOState × List Command :=
  if humidity < humidity_min - 5 ∧ g.fogger_active = false ∧ water_level > 20
  then (control_fogger g true, [Command.foggerOn fogger_duration])
  else (g, [])

/-- The third block: `control_fan(50)` when `humidity > humidity_max + 5`
and the speed is below 50, else `control_fan(0)` when
`humidity <= humidity_max` and the speed is positive. -/
def fanStep (g : GPIOState) (humidity : ℚ) : GPIOState × List Command :=
  if humidity > humidity_max + 5 ∧ g.fan_speed < 50 then
    (control_fan g 50, [Command.fanSet 50])
  else if humidity ≤ humidity_max ∧ g.fan_speed > 0 then
    (control_fan g 0, [Command.fanSet 0])
  else (g, [])

/-- The light-schedule window `[on_hour, off_hour)` of the fourth block. -/
def shouldLightsBeOn (hour : ℕ) : Bool :=
  decide (light_on_hour ≤ hour) && decide (hour < light_off_hour)

/-- The fourth block: `control_lights` is called only on a state change. -/
def lightStep (g : GPIOState) (hour : ℕ) : GPIOState × List Command :=
  if shouldLightsBeOn hour ≠ g.lights_active then
    (control_lights g (shouldLightsBeOn hour),
     [Command.lightsSet (shouldLightsBeOn hour)])
  else (g, [])

/-- `auto_control_environment` of `app.py`: the four blocks run in order on
the shared `gpio_control` state; the commands they issue are collected in
call order. `hour` is `datetime.now().hour`. The reading's temperature is
read but drives no actuator (the heater is never touched). -/
def auto_control_environment (g : GPIOState) (sensor : Reading) (hour : ℕ) :
    GPIOState × List Command :=
  let w := waterStep g sensor.water_level
  let f := foggerStep w.1 sensor.humidity sensor.water_level
  let fan := fanStep f.1 sensor.humidity
  let l := lightStep fan.1 hour
  (l.1, w.2 ++ f.2 ++ fan.2 ++ l.2)

end Control

namespace Monitor

/-- The environment of one `sensor_monitor` cycle: the outcome of each step
of the loop body (sensor read, auto-control, database save, socket emit);
an `Except.error` is that step raising. -/
structure CycleEnv where
  sensor_read : Except String Reading
  control_step : Except String Unit
  save_step : Except String (Option String)
  publish_step : Except String Unit
deriving Repr

/-- The body of the `while True` loop of `sensor_monitor`, up to the point
where an exception would leave it: each step runs in order and the first
raising step aborts the rest of the cycle. -/
def runCycleBody (e : CycleEnv) : Except String Unit := do
  let _ ← e.sensor_read
  let _ ← e.control_step
  let _ ← e.save_step
  let _ ← e.publish_step
  pure ()

/-- What one iteration of `sensor_monitor` does after its body: sleep
`SENSOR_READ_INTERVAL` on success, or — for a body that raised, caught by
the `except` — log and sleep 5. Either way the `while True` loop proceeds
to the next iteration; no path leaves the loop. -/
def monitorSleep (e : CycleEnv) : ℕ :=
  match runCycleBody e with
  | Except.ok _ => SENSOR_READ_INTERVAL
  | Except.error _ => 5

/-- The loop run over a finite trace of cycle environments: every cycle is
processed and contributes its sleep; faults never shorten the run. -/
def sensor_monitor_run : List CycleEnv → List ℕ
  | [] => []
  | e :: es => monitorSleep e :: sensor_monitor_run es

end Monitor

namespace App

/-- Whether the local collection holds a record with this `_id` whose
`synced_to_atlas` flag is set — the observable that the replication
lifecycle makes monotone. -/
def recordSyncedTrue (recs : List LocalRecord) (rid : ℕ) : Bool :=
  recs.any fun rec => rec.rid == rid && rec.synced_to_atlas

end App

namespace Demo

/-- A generic in-range observation used as concrete input. -/
def reading0 : Reading := ⟨21, 85, 900, 500, 60⟩

/-- Three unsynced local records with ascending timestamps 1 < 2 < 3. -/
def recs3 : List App.LocalRecord :=
  [⟨1, DEVICE_ID, reading0, 1, false⟩,
   ⟨2, DEVICE_ID, reading0, 2, false⟩,
   ⟨3, DEVICE_ID, reading0, 3, false⟩]

/-- An empty Atlas collection. -/
def atlas0 : List App.AtlasRecord := []

/-- A reconnected `app.py` service about to run catch-up sync. -/
def syncState : App.DBState := ⟨some recs3, some atlas0, true, false, [], 4⟩

/-- An `app.py` service in the Connected steady state with empty stores. -/
def connectedState : App.DBState := ⟨some [], some [], true, false, [], 1⟩

/-- The `app.py` service after local MongoDB setup failed: no backends,
`simulation_data` exists and is empty. -/
def fallbackInit : App.DBState := ⟨none, none, false, true, [], 1⟩

/-- `n` consecutive saves in fallback mode. -/
def saveFallbackN : ℕ → App.DBState
  | 0 => fallbackInit
  | n + 1 => (App.save_reading (saveFallbackN n) reading0 (n + 1)).1

/-- A cycle in which the SCD40 delivers temperature 30, humidity 80,
CO2 900 and the other sensors fail. -/
def rawSuccess : Sensor.RawSensors := ⟨some ⟨30, 80, 900⟩, none, none⟩

/-- A cycle in which every physical sensor fails. -/
def rawFailure : Sensor.RawSensors := ⟨none, none, none⟩

/-- The sensor service as `__init__` leaves it. -/
def sensorState0 : Sensor.SensorState := ⟨Sensor.initial_current_data⟩

/-- Actuators with the fogger running (lights on, matching hour 12). -/
def gFoggerOn : Control.GPIOState := ⟨true, 0, false, true⟩

/-- A reading with humidity far below the minimum but water below 15%. -/
def rLowWater : Reading := ⟨21, 60, 900, 500, 10⟩

/-- Actuators with the fan off. -/
def gFanOff : Control.GPIOState := ⟨false, 0, false, true⟩

/-- Actuators with the fan running at 50. -/
def gFanOn : Control.GPIOState := ⟨false, 50, false, true⟩

/-- Humidity 101 (above `humidity_max + 5`), water fine. -/
def r101 : Reading := ⟨21, 101, 900, 500, 50⟩

/-- Humidity 96 (inside the hysteresis band). -/
def r96 : Reading := ⟨21, 96, 900, 500, 50⟩

/-- Humidity 94 (at or below `humidity_max`). -/
def r94 : Reading := ⟨21, 94, 900, 500, 50⟩

/-- The message of a raising sensor read. -/
def sensorFaultText : String := "SCD40 read raised"

/-- A cycle whose first step raises. -/
def faultEnv : Monitor.CycleEnv :=
  ⟨Except.error sensorFaultText, Except.ok (), Except.ok none, Except.ok ()⟩

/-- A cycle with every step succeeding. -/
def okEnv : Monitor.CycleEnv :=
  ⟨Except.ok Sensor.initial_current_data, Except.ok (), Except.ok none,
   Except.ok ()⟩

end Demo

/-! ## Theorems -/

/-- Every monitor run processes its whole trace: no cycle outcome stops it. -/
theorem sensor_monitor_run_length (trace : List Monitor.CycleEnv) :
    (Monitor.sensor_monitor_run trace).length = trace.length := by
  induction trace with
  | nil => rfl
  | cons e es ih => simp [Monitor.sensor_monitor_run, ih]

/-- Claim C9: a single failed acquisition cycle never terminates the
acquisition loop — for every trace of cycle environments the loop processes
every cycle (the run has one sleep per cycle, never fewer); a cycle in which
any step throws is caught and followed by the fixed 5-second backoff, and a
clean cycle by the configured read interval. Per-cycle faults never
propagate: `monitorSleep` (the continuation decision) is total. -/
theorem C9_cycle_faults_contained :
    (∀ trace : List Monitor.CycleEnv,
      (Monitor.sensor_monitor_run trace).length = trace.length) ∧
    (∀ e msg, Monitor.runCycleBody e = Except.error msg →
      Monitor.monitorSleep e = 5) ∧
    (∀ e r, Monitor.runCycleBody e = Except.ok r →
      Monitor.monitorSleep e = SENSOR_READ_INTERVAL) := by
  refine ⟨sensor_monitor_run_length, ?_, ?_⟩
  · intro e msg h
    simp [Monitor.monitorSleep, h]
  · intro e r h
    simp [Monitor.monitorSleep, h]

/-- Claim C2 (evaluation at the failing input): a first cycle in which the
SCD40 reads temperature 30 yields a reading carrying 30, but the service
state is unchanged — `current_data` still holds the startup defaults — so a
second cycle in which every sensor fails returns the startup default 22,
not the previously accepted 30. -/
theorem C2_fallback_is_startup_default :
    (Sensor.read_sensors Demo.sensorState0 Demo.rawSuccess).temperature = 30 ∧
    (Sensor.sensorCycle Demo.sensorState0 Demo.rawSuccess).1 =
      Demo.sensorState0 ∧
    Sensor.read_sensors (Sensor.sensorCycle Demo.sensorState0 Demo.rawSuccess).1
      Demo.rawFailure = Sensor.initial_current_data ∧
    (Sensor.read_sensors (Sensor.sensorCycle Demo.sensorState0 Demo.rawSuccess).1
      Demo.rawFailure).temperature = 22 := by
  refine ⟨?_, rfl, rfl, rfl⟩
  norm_num [Sensor.read_sensors, Demo.rawSuccess, Demo.sensorState0,
    Sensor.calibration_temperature, round1]

/-- In fallback mode the in-memory list grows by exactly one per save: no
backend ever reappears and after `n` saves it holds `n` records. -/
theorem saveFallbackN_length (n : ℕ) :
    (Demo.saveFallbackN n).local_mongo_db = none ∧
    (Demo.saveFallbackN n).has_simulation = true ∧
    (Demo.saveFallbackN n).simulation_data.length = n := by
  induction n with
  | zero => exact ⟨rfl, rfl, rfl⟩
  | succ n ih =>
    obtain ⟨h1, h2, h3⟩ := ih
    simp [Demo.saveFallbackN, App.save_reading, h1, h2, h3]

/-- Claim C5 counterexample: the fallback buffer of `save_reading` admits no
fixed bound on its record count — it is a plain list appended to on every
save, not a bounded ring buffer. -/
theorem C5_counterexample_no_bound :
    ¬ ∃ bound : ℕ, ∀ n : ℕ,
      (Demo.saveFallbackN n).simulation_data.length ≤ bound := by
  rintro ⟨bound, hb⟩
  have h := hb (bound + 1)
  rw [(saveFallbackN_length (bound + 1)).2.2] at h
  omega

/-- Claim C5 (amended): when the primary backend is unreachable, save falls
back to the in-memory `simulation_data` list, which grows without bound —
after `n` fallback saves it holds exactly `n` records. -/
theorem C5_amended_fallback_unbounded (n : ℕ) :
    (Demo.saveFallbackN n).simulation_data.length = n :=
  (saveFallbackN_length n).2.2

/-- A descending insertion sort on timestamps is pairwise descending. -/
theorem sorted_sortTsDesc {α : Type} (ts : α → ℕ) (l : List α) :
    (List.insertionSort (fun a b => ts b ≤ ts a) l).Pairwise
      (fun a b => ts b ≤ ts a) := by
  haveI : IsTotal α fun a b => ts b ≤ ts a :=
    ⟨fun a b => Nat.le_total (ts b) (ts a)⟩
  haveI : IsTrans α fun a b => ts b ≤ ts a :=
    ⟨fun _ _ _ h1 h2 => Nat.le_trans h2 h1⟩
  exact List.sorted_insertionSort _ l

/-- An ascending insertion sort on timestamps is pairwise ascending. -/
theorem sorted_sortTsAsc {α : Type} (ts : α → ℕ) (l : List α) :
    (List.insertionSort (fun a b => ts a ≤ ts b) l).Pairwise
      (fun a b => ts a ≤ ts b) := by
  haveI : IsTotal α fun a b => ts a ≤ ts b :=
    ⟨fun a b => Nat.le_total (ts a) (ts b)⟩
  haveI : IsTrans α fun a b => ts a ≤ ts b :=
    ⟨fun _ _ _ h1 h2 => Nat.le_trans h1 h2⟩
  exact List.sorted_insertionSort _ l

/-- Mapping the timestamp over a prefix of a descending sort is descending. -/
theorem mapTs_take_sorted_desc {α : Type} (ts : α → ℕ) (l : List α)
    (limit : ℕ) :
    (((List.insertionSort (fun a b => ts b ≤ ts a) l).take limit).map
      ts).Pairwise (fun a b => b ≤ a) :=
  List.pairwise_map.mpr
    (List.Pairwise.sublist (List.take_sublist limit _) (sorted_sortTsDesc ts l))

/-- Branch evaluation: `app.py`'s latest-readings query on a configured
local backend — the truthiness test raises, the `except` returns `[]`. -/
theorem app_get_latest_eval_local (s : App.DBState)
    (recs : List App.LocalRecord) (h : s.local_mongo_db = some recs)
    (limit : ℕ) :
    App.get_latest_readings s true limit = [] := by
  unfold App.get_latest_readings
  rw [h]
  rfl

/-- Branch evaluation: the latest-readings query on the simulation list. -/
theorem app_get_latest_eval_sim (s : App.DBState)
    (h : s.local_mongo_db = none) (hsim : s.has_simulation = true)
    (limit : ℕ) :
    App.get_latest_readings s true limit =
      ((App.sortSimDesc s.simulation_data).take limit).map App.simToDoc := by
  unfold App.get_latest_readings
  rw [h, hsim]
  rfl

/-- Branch evaluation: the latest-readings query with no storage at all. -/
theorem app_get_latest_eval_none (s : App.DBState)
    (h : s.local_mongo_db = none) (hsim : s.has_simulation = false)
    (limit : ℕ) :
    App.get_latest_readings s true limit = [] := by
  unfold App.get_latest_readings
  rw [h, hsim]
  rfl

/-- Branch evaluation: `app.py`'s historical query on a configured local
backend — the truthiness test raises, the `except` returns `[]`. -/
theorem app_get_hist_eval_local (s : App.DBState)
    (recs : List App.LocalRecord) (h : s.local_mongo_db = some recs)
    (now hours limit : ℕ) :
    App.get_historical_data s true now hours limit = [] := by
  unfold App.get_historical_data
  rw [h]
  rfl

/-- Branch evaluation: the historical query without a local backend. -/
theorem app_get_hist_eval_none (s : App.DBState)
    (h : s.local_mongo_db = none) (now hours limit : ℕ) :
    App.get_historical_data s true now hours limit = [] := by
  unfold App.get_historical_data
  rw [h]
  rfl

/-- Branch evaluation: `database_service.py`'s latest-readings query with a
picked backend. -/
theorem svc_get_latest_eval_some (s : DBSvc.State)
    (recs : List DBSvc.SRec) (h : DBSvc.pickDb s = some recs) (limit : ℕ) :
    DBSvc.get_latest_readings s true limit = (DBSvc.sortDesc recs).take limit := by
  unfold DBSvc.get_latest_readings
  rw [h]
  rfl

/-- Branch evaluation: the latest-readings query with no backend picked. -/
theorem svc_get_latest_eval_none (s : DBSvc.State)
    (h : DBSvc.pickDb s = none) (limit : ℕ) :
    DBSvc.get_latest_readings s true limit = [] := by
  unfold DBSvc.get_latest_readings
  rw [h]
  rfl

/-- Branch evaluation: `database_service.py`'s historical query with a
picked backend. -/
theorem svc_get_hist_eval_some (s : DBSvc.State)
    (recs : List DBSvc.SRec) (h : DBSvc.pickDb s = some recs)
    (now hours : ℕ) :
    DBSvc.get_historical_data s true now hours =
      DBSvc.sortAsc (recs.filter fun rec =>
        decide (now - hours * 3600 ≤ rec.server_timestamp)) := by
  unfold DBSvc.get_historical_data
  rw [h]
  rfl

/-- Branch evaluation: the historical query with no backend picked. -/
theorem svc_get_hist_eval_none (s : DBSvc.State)
    (h : DBSvc.pickDb s = none) (now hours : ℕ) :
    DBSvc.get_historical_data s true now hours = [] := by
  unfold DBSvc.get_historical_data
  rw [h]
  rfl

/-- Claim C7: ordering of the query surface. `database_service.py` returns
latest-readings newest first and historical data oldest first, genuinely
sorted. In `app.py`, `get_latest_readings` is newest first on every store
state (its local branch returns `[]` — the truthiness test raises and the
`except` catches — and its simulation branch sorts descending), and
`get_historical_data` returns `[]` on every store state for the same
reason, so its result is (vacuously) ordered oldest first as well. -/
theorem C7_query_order_by_timestamp :
    (∀ (s : DBSvc.State) fetchOk limit,
      ((DBSvc.get_latest_readings s fetchOk limit).map
        DBSvc.SRec.server_timestamp).Pairwise (fun a b => b ≤ a)) ∧
    (∀ (s : DBSvc.State) fetchOk now hours,
      ((DBSvc.get_historical_data s fetchOk now hours).map
        DBSvc.SRec.server_timestamp).Pairwise (fun a b => a ≤ b)) ∧
    (∀ (s : App.DBState) fetchOk limit,
      ((App.get_latest_readings s fetchOk limit).map
        App.Doc.server_timestamp).Pairwise (fun a b => b ≤ a)) ∧
    (∀ (s : App.DBState) fetchOk now hours limit,
      App.get_historical_data s fetchOk now hours limit = []) ∧
    (∀ (s : App.DBState) fetchOk now hours limit,
      ((App.get_historical_data s fetchOk now hours limit).map
        App.Doc.server_timestamp).Pairwise (fun a b => a ≤ b)) := by
  have happHist : ∀ (s : App.DBState) (fetchOk : Bool) (now hours limit : ℕ),
      App.get_historical_data s fetchOk now hours limit = [] := by
    intro s fetchOk now hours limit
    cases fetchOk with
    | false => rfl
    | true =>
      cases hl : s.local_mongo_db with
      | some recs => exact app_get_hist_eval_local s recs hl now hours limit
      | none => exact app_get_hist_eval_none s hl now hours limit
  refine ⟨?_, ?_, ?_, happHist, ?_⟩
  · intro s fetchOk limit
    cases fetchOk with
    | false => exact List.Pairwise.nil
    | true =>
      cases hl : DBSvc.pickDb s with
      | some recs =>
        rw [svc_get_latest_eval_some s recs hl limit]
        exact List.pairwise_map.mpr
          (List.Pairwise.sublist (List.take_sublist limit _)
            (sorted_sortTsDesc DBSvc.SRec.server_timestamp recs))
      | none =>
        rw [svc_get_latest_eval_none s hl limit]
        exact List.Pairwise.nil
  · intro s fetchOk now hours
    cases fetchOk with
    | false => exact List.Pairwise.nil
    | true =>
      cases hl : DBSvc.pickDb s with
      | some recs =>
        rw [svc_get_hist_eval_some s recs hl now hours]
        exact List.pairwise_map.mpr
          (sorted_sortTsAsc DBSvc.SRec.server_timestamp _)
      | none =>
        rw [svc_get_hist_eval_none s hl now hours]
        exact List.Pairwise.nil
  · intro s fetchOk limit
    cases fetchOk with
    | false => exact List.Pairwise.nil
    | true =>
      cases hl : s.local_mongo_db with
      | some recs =>
        rw [app_get_latest_eval_local s recs hl limit]
        exact List.Pairwise.nil
      | none =>
        cases hsim : s.has_simulation with
        | true =>
          rw [app_get_latest_eval_sim s hl hsim limit, List.map_map]
          exact mapTs_take_sorted_desc App.SimRecord.server_timestamp _ limit
        | false =>
          rw [app_get_latest_eval_none s hl hsim limit]
          exact List.Pairwise.nil
  · intro s fetchOk now hours limit
    rw [happHist s fetchOk now hours limit]
    exact List.Pairwise.nil


/-- Claim C10: the query surface never propagates an error — with no
backend configured or with the backend raising anywhere in the body
(`fetchOk = false`), both `get_latest_readings` and `get_historical_data`,
in both modules, return the empty list. -/
theorem C10_queries_return_empty_on_error :
    (∀ (s : App.DBState) limit, App.get_latest_readings s false limit = []) ∧
    (∀ (s : App.DBState) now hours limit,
      App.get_historical_data s false now hours limit = []) ∧
    (∀ (s : App.DBState) fetchOk limit, s.local_mongo_db = none →
      s.has_simulation = false → App.get_latest_readings s fetchOk limit = []) ∧
    (∀ (s : App.DBState) fetchOk now hours limit, s.local_mongo_db = none →
      App.get_historical_data s fetchOk now hours limit = []) ∧
    (∀ (s : DBSvc.State) limit, DBSvc.get_latest_readings s false limit = []) ∧
    (∀ (s : DBSvc.State) now hours,
      DBSvc.get_historical_data s false now hours = []) ∧
    (∀ (s : DBSvc.State) fetchOk limit, DBSvc.pickDb s = none →
      DBSvc.get_latest_readings s fetchOk limit = []) ∧
    (∀ (s : DBSvc.State) fetchOk now hours, DBSvc.pickDb s = none →
      DBSvc.get_historical_data s fetchOk now hours = []) := by
  refine ⟨fun s limit => rfl, fun s now hours limit => rfl, ?_, ?_,
    fun s limit => rfl, fun s now hours => rfl, ?_, ?_⟩
  · intro s fetchOk limit hl hsim
    cases fetchOk with
    | false => rfl
    | true => exact app_get_latest_eval_none s hl hsim limit
  · intro s fetchOk now hours limit hl
    cases fetchOk with
    | false => rfl
    | true => exact app_get_hist_eval_none s hl now hours limit
  · intro s fetchOk limit hdb
    cases fetchOk with
    | false => rfl
    | true => exact svc_get_latest_eval_none s hdb limit
  · intro s fetchOk now hours hdb
    cases fetchOk with
    | false => rfl
    | true => exact svc_get_hist_eval_none s hdb now hours

/-- The water-check block only ever issues the fogger-off command. -/
theorem waterStep_cmds {g : Control.GPIOState} {wl : ℚ} {c : Control.Command}
    (hc : c ∈ (Control.waterStep g wl).2) : c = Control.Command.foggerOff := by
  unfold Control.waterStep at hc
  split at hc
  · split at hc
    · simpa using hc
    · simp at hc
  · simp at hc

/-- Under the low-water veto the water-check block leaves the fogger off. -/
theorem waterStep_fogger_off {g : Control.GPIOState} {wl : ℚ}
    (hw : wl < critical_low_water) :
    (Control.waterStep g wl).1.fogger_active = false := by
  unfold Control.waterStep
  rw [if_pos hw]
  cases hg : g.fogger_active with
  | true => simp [hg, Control.control_fogger]
  | false => simp [hg]

/-- Without `water_level > 20` the fogger block does nothing. -/
theorem foggerStep_no_water {g : Control.GPIOState} {h wl : ℚ}
    (hw : ¬ wl > 20) : Control.foggerStep g h wl = (g, []) := by
  unfold Control.foggerStep
  rw [if_neg]
  intro hcond
  exact hw hcond.2.2

/-- The fogger block only ever issues the fogger-on command. -/
theorem foggerStep_cmds {g : Control.GPIOState} {h wl : ℚ}
    {c : Control.Command} (hc : c ∈ (Control.foggerStep g h wl).2) :
    c = Control.Command.foggerOn fogger_duration := by
  unfold Control.foggerStep at hc
  split at hc
  · simpa using hc
  · simp at hc

/-- The fan block issues only the two fan commands, each under its guard. -/
theorem fanStep_cmds {g : Control.GPIOState} {h : ℚ} {c : Control.Command}
    (hc : c ∈ (Control.fanStep g h).2) :
    (c = Control.Command.fanSet 50 ∧ h > humidity_max + 5 ∧ g.fan_speed < 50) ∨
    (c = Control.Command.fanSet 0 ∧ h ≤ humidity_max ∧ g.fan_speed > 0) := by
  by_cases h1 : h > humidity_max + 5 ∧ g.fan_speed < 50
  · unfold Control.fanStep at hc
    rw [if_pos h1] at hc
    exact Or.inl ⟨by simpa using hc, h1.1, h1.2⟩
  · by_cases h2 : h ≤ humidity_max ∧ g.fan_speed > 0
    · unfold Control.fanStep at hc
      rw [if_neg h1, if_pos h2] at hc
      exact Or.inr ⟨by simpa using hc, h2.1, h2.2⟩
    · unfold Control.fanStep at hc
      rw [if_neg h1, if_neg h2] at hc
      simp at hc

/-- The fan block does not touch the fogger. -/
theorem fanStep_fst_fogger (g : Control.GPIOState) (h : ℚ) :
    (Control.fanStep g h).1.fogger_active = g.fogger_active := by
  unfold Control.fanStep
  split
  · rfl
  · split <;> rfl

/-- The light block only ever issues light commands. -/
theorem lightStep_cmds {g : Control.GPIOState} {hour : ℕ}
    {c : Control.Command} (hc : c ∈ (Control.lightStep g hour).2) :
    c = Control.Command.lightsSet (Control.shouldLightsBeOn hour) := by
  unfold Control.lightStep at hc
  split at hc
  · simpa using hc
  · simp at hc

/-- The light block does not touch the fogger. -/
theorem lightStep_fst_fogger (g : Control.GPIOState) (hour : ℕ) :
    (Control.lightStep g hour).1.fogger_active = g.fogger_active := by
  unfold Control.lightStep
  split <;> rfl

/-- Claim C4: the safety veto — for every reading with `water_level` below
the 15% threshold, one `auto_control_environment` pass emits no fogger-on
command (whatever the humidity) and leaves the fogger inactive, whatever the
actuator state was. -/
theorem C4_safety_veto (g : Control.GPIOState) (sensor : Reading)
    (hour : ℕ) (hw : sensor.water_level < critical_low_water) (d : ℕ) :
    Control.Command.foggerOn d ∉
      (Control.auto_control_environment g sensor hour).2 ∧
    (Control.auto_control_environment g sensor hour).1.fogger_active
      = false := by
  have hw20 : ¬ sensor.water_level > 20 := by
    intro h20
    have h := lt_trans h20 hw
    norm_num [critical_low_water] at h
  constructor
  · intro hmem
    simp only [Control.auto_control_environment, List.mem_append] at hmem
    rcases hmem with ((hmem | hmem) | hmem) | hmem
    · exact absurd (waterStep_cmds hmem) (by simp)
    · rw [foggerStep_no_water hw20] at hmem
      simp at hmem
    · rcases fanStep_cmds hmem with ⟨hEq, _⟩ | ⟨hEq, _⟩ <;> simp at hEq
    · exact absurd (lightStep_cmds hmem) (by simp)
  · simp only [Control.auto_control_environment]
    rw [lightStep_fst_fogger, fanStep_fst_fogger, foggerStep_no_water hw20]
    exact waterStep_fogger_off hw

/-- Claim C4, witness: a concrete reading at 10% water with the fogger
running and humidity 60 (20 below the minimum) produces no fogger-on
command and ends with the fogger off. -/
theorem C4_safety_veto_witness :
    Control.Command.foggerOn fogger_duration ∉
      (Control.auto_control_environment Demo.gFoggerOn Demo.rLowWater 12).2 ∧
    (Control.auto_control_environment Demo.gFoggerOn
      Demo.rLowWater 12).1.fogger_active = false :=
  C4_safety_veto Demo.gFoggerOn Demo.rLowWater 12
    (by norm_num [Demo.rLowWater, critical_low_water]) fogger_duration

/-- Claim C6: fan hysteresis at `humidity_max = 95`. Humidity 101 with the
fan off emits fan-on at speed 50 and leaves the fan at 50; humidity 96 with
the fan on emits no fan command and leaves the fan at 50; humidity 94 with
the fan on emits fan-off and leaves the fan at 0. In general a fan-on
command is emitted only when `humidity > humidity_max + 5` and a fan-off
command only when `humidity <= humidity_max`. -/
theorem C6_fan_hysteresis :
    (Control.Command.fanSet 50 ∈
        (Control.auto_control_environment Demo.gFanOff Demo.r101 12).2 ∧
      (Control.auto_control_environment Demo.gFanOff
        Demo.r101 12).1.fan_speed = 50) ∧
    ((∀ sp, Control.Command.fanSet sp ∉
        (Control.auto_control_environment Demo.gFanOn Demo.r96 12).2) ∧
      (Control.auto_control_environment Demo.gFanOn
        Demo.r96 12).1.fan_speed = 50) ∧
    (Control.Command.fanSet 0 ∈
        (Control.auto_control_environment Demo.gFanOn Demo.r94 12).2 ∧
      (Control.auto_control_environment Demo.gFanOn
        Demo.r94 12).1.fan_speed = 0) ∧
    (∀ (g : Control.GPIOState) (sensor : Reading) (hour : ℕ) (sp : ℤ),
      Control.Command.fanSet sp ∈
          (Control.auto_control_environment g sensor hour).2 →
        (sp = 50 ∧ sensor.humidity > humidity_max + 5) ∨
        (sp = 0 ∧ sensor.humidity ≤ humidity_max)) := by
  refine ⟨⟨?_, ?_⟩, ⟨?_, ?_⟩, ⟨?_, ?_⟩, ?_⟩
  · norm_num [Control.auto_control_environment, Control.waterStep,
      Control.foggerStep, Control.fanStep, Control.lightStep,
      Control.shouldLightsBeOn, Control.control_fan, Control.control_lights,
      light_on_hour, light_off_hour, Demo.r101, Demo.gFanOff,
      humidity_min, humidity_max, critical_low_water]
  · norm_num [Control.auto_control_environment, Control.waterStep,
      Control.foggerStep, Control.fanStep, Control.lightStep,
      Control.shouldLightsBeOn, Control.control_fan, Control.control_lights,
      light_on_hour, light_off_hour, Demo.r101, Demo.gFanOff,
      humidity_min, humidity_max, critical_low_water]
  · intro sp
    norm_num [Control.auto_control_environment, Control.waterStep,
      Control.foggerStep, Control.fanStep, Control.lightStep,
      Control.shouldLightsBeOn, Control.control_fan, Control.control_lights,
      light_on_hour, light_off_hour, Demo.r96, Demo.gFanOn,
      humidity_min, humidity_max, critical_low_water]
  · norm_num [Control.auto_control_environment, Control.waterStep,
      Control.foggerStep, Control.fanStep, Control.lightStep,
      Control.shouldLightsBeOn, Control.control_fan, Control.control_lights,
      light_on_hour, light_off_hour, Demo.r96, Demo.gFanOn,
      humidity_min, humidity_max, critical_low_water]
  · norm_num [Control.auto_control_environment, Control.waterStep,
      Control.foggerStep, Control.fanStep, Control.lightStep,
      Control.shouldLightsBeOn, Control.control_fan, Control.control_lights,
      light_on_hour, light_off_hour, Demo.r94, Demo.gFanOn,
      humidity_min, humidity_max, critical_low_water]
  · norm_num [Control.auto_control_environment, Control.waterStep,
      Control.foggerStep, Control.fanStep, Control.lightStep,
      Control.shouldLightsBeOn, Control.control_fan, Control.control_lights,
      light_on_hour, light_off_hour, Demo.r94, Demo.gFanOn,
      humidity_min, humidity_max, critical_low_water]
  · intro g sensor hour sp hmem
    simp only [Control.auto_control_environment, List.mem_append] at hmem
    rcases hmem with ((hmem | hmem) | hmem) | hmem
    · exact absurd (waterStep_cmds hmem) (by simp)
    · exact absurd (foggerStep_cmds hmem) (by simp)
    · rcases fanStep_cmds hmem with ⟨hEq, hcond, _⟩ | ⟨hEq, hcond, _⟩
      · left
        refine ⟨?_, hcond⟩
        simpa using hEq
      · right
        refine ⟨?_, hcond⟩
        simpa using hEq
    · exact absurd (lightStep_cmds hmem) (by simp)

/-- Evaluation of the local-collection view on a configured backend. -/
theorem localRecsOf_eq_of_some {s : App.DBState}
    {recs : List App.LocalRecord} (h : s.local_mongo_db = some recs) :
    App.localRecsOf s = recs := by
  unfold App.localRecsOf
  rw [h]
  rfl

/-- Evaluation of the local-collection view without a backend. -/
theorem localRecsOf_eq_of_none {s : App.DBState}
    (h : s.local_mongo_db = none) : App.localRecsOf s = [] := by
  unfold App.localRecsOf
  rw [h]
  rfl

/-- Claim C3 (evaluation at the failing input): a save in the Connected
state (`using_atlas` true, both stores configured) does not behave as
claimed in `app.py` — the method raises at the `if self.local_mongo_db:`
truthiness test, its own `except` catches, and it returns `None` with the
state unchanged: nothing is saved locally at all, so "the local save still
succeeds" fails. The generalization holds for every state with a local
backend. `database_service.py`'s `save_reading` (also cited by the claim)
does realize the claimed behavior: on a Connected save whose Atlas write
fails it drops `using_atlas` to false and the local save succeeds. -/
theorem C3_save_never_persists_locally :
    Demo.connectedState.using_atlas = true ∧
    (App.save_reading Demo.connectedState Demo.reading0 5).1 =
      Demo.connectedState ∧
    (App.save_reading Demo.connectedState Demo.reading0 5).2 = none ∧
    (∀ (s : App.DBState) (r : Reading) (now : ℕ),
      s.local_mongo_db.isSome = true →
      (App.save_reading s r now).1 = s ∧
      (App.save_reading s r now).2 = none) ∧
    (∀ (t : DBSvc.State) (l : List DBSvc.SRec) (r : Reading) (now : ℕ),
      t.local_db = some l → t.using_atlas = true → t.atlas_db.isSome = true →
      (DBSvc.save_reading t r now false true).1.using_atlas = false ∧
      (DBSvc.save_reading t r now false true).2 = true ∧
      (DBSvc.save_reading t r now false true).1.local_db =
        some (l ++ [⟨r, now⟩])) := by
  refine ⟨rfl, rfl, rfl, ?_, ?_⟩
  · intro s r now h
    cases hl : s.local_mongo_db with
    | none =>
      rw [hl] at h
      simp at h
    | some recs =>
      constructor
      · unfold App.save_reading
        rw [hl]
      · unfold App.save_reading
        rw [hl]
  · intro t l r now hl hu hsome
    unfold DBSvc.save_reading
    rw [hu, hsome]
    simp [hl]

/-- The record-is-replicated observable, elementwise. -/
theorem recordSyncedTrue_mem {recs : List App.LocalRecord} {rid : ℕ} :
    App.recordSyncedTrue recs rid = true ↔
      ∃ rec ∈ recs, rec.rid = rid ∧ rec.synced_to_atlas = true := by
  unfold App.recordSyncedTrue
  rw [List.any_eq_true]
  constructor
  · rintro ⟨rec, hmem, hp⟩
    simp only [Bool.and_eq_true, beq_iff_eq] at hp
    exact ⟨rec, hmem, hp⟩
  · rintro ⟨rec, hmem, h1, h2⟩
    exact ⟨rec, hmem, by simp [h1, h2]⟩

/-- Marking any record replicated never clears another record's flag. -/
theorem recordSyncedTrue_markSynced {recs : List App.LocalRecord} {rid : ℕ}
    (rid' : ℕ) (h : App.recordSyncedTrue recs rid = true) :
    App.recordSyncedTrue (App.markSyncedById recs rid') rid = true := by
  rcases recordSyncedTrue_mem.mp h with ⟨rec, hmem, h1, h2⟩
  apply recordSyncedTrue_mem.mpr
  refine ⟨if rec.rid = rid' then { rec with synced_to_atlas := true }
    else rec, ?_, ?_, ?_⟩
  · unfold App.markSyncedById
    exact List.mem_map_of_mem _ hmem
  · split <;> simpa using h1
  · split <;> simp [h2]

/-- Claim C8: marking a record replicated is idempotent (a second
`update_one` `$set` with the same `_id` changes nothing — no error, no
double-count) and the flag is monotone: once a record's `synced_to_atlas`
is true, neither a further mark, nor `save_reading`, nor
`sync_offline_data` ever makes it false again (the latter two touch no
local record at all in the current `app.py`). -/
theorem C8_mark_replicated_idempotent_monotonic :
    (∀ (recs : List App.LocalRecord) (rid : ℕ),
      App.markSyncedById (App.markSyncedById recs rid) rid =
        App.markSyncedById recs rid) ∧
    (∀ (recs : List App.LocalRecord) (rid rid' : ℕ),
      App.recordSyncedTrue recs rid = true →
      App.recordSyncedTrue (App.markSyncedById recs rid') rid = true) ∧
    (∀ (s : App.DBState) (r : Reading) (now : ℕ) (rid : ℕ),
      App.recordSyncedTrue (App.localRecsOf s) rid = true →
      App.recordSyncedTrue
        (App.localRecsOf (App.save_reading s r now).1) rid = true) ∧
    (∀ (s : App.DBState) (rid : ℕ),
      App.recordSyncedTrue (App.localRecsOf s) rid = true →
      App.recordSyncedTrue
        (App.localRecsOf (App.sync_offline_data s).1) rid = true) := by
  refine ⟨?_, fun recs rid rid' => recordSyncedTrue_markSynced rid', ?_, ?_⟩
  · intro recs rid
    induction recs with
    | nil => rfl
    | cons rec recs ih =>
      unfold App.markSyncedById at ih ⊢
      simp only [List.map_cons]
      by_cases h : rec.rid = rid
      · simp [h, ih]
      · simp [h, ih]
  · intro s r now rid h
    cases hl : s.local_mongo_db with
    | none =>
      rw [localRecsOf_eq_of_none hl] at h
      simp [App.recordSyncedTrue] at h
    | some recs =>
      have hfst : (App.save_reading s r now).1 = s := by
        unfold App.save_reading
        rw [hl]
      rw [hfst]
      exact h
  · intro s rid h
    have hfst : (App.sync_offline_data s).1 = s := by
      unfold App.sync_offline_data
      cases s.atlas_mongo_db <;> rfl
    rw [hfst]
    exact h

/-- Claim C1 (evaluation at the failing input): catch-up sync never
happens. `sync_offline_data` leaves the service state unchanged on every
input; whenever Atlas is configured it raises the truthiness
`NotImplementedError` at its guard, before its fetch-insert-mark body. At
the concrete reconnected state with three unsynced records stamped
1 < 2 < 3 awaiting catch-up (`syncOrder` returns all three), the method
raises, the replica store stays empty and every record stays unsynced — no
record is ever inserted, in ascending order or any other. -/
theorem C1_sync_raises_and_syncs_nothing :
    (∀ s : App.DBState, (App.sync_offline_data s).1 = s) ∧
    (∀ s : App.DBState, s.atlas_mongo_db.isSome = true →
      (App.sync_offline_data s).2 = some App.pymongoBoolError) ∧
    (∀ s : App.DBState, s.atlas_mongo_db = none →
      (App.sync_offline_data s).2 = none) ∧
    App.syncOrder Demo.recs3 = Demo.recs3 ∧
    (App.sync_offline_data Demo.syncState).2 = some App.pymongoBoolError ∧
    (App.sync_offline_data Demo.syncState).1.atlas_mongo_db =
      some Demo.atlas0 ∧
    (App.sync_offline_data Demo.syncState).1.local_mongo_db =
      some Demo.recs3 := by
  refine ⟨?_, ?_, ?_, by decide, rfl, rfl, rfl⟩
  · intro s
    unfold App.sync_offline_data
    cases s.atlas_mongo_db <;> rfl
  · intro s h
    unfold App.sync_offline_data
    cases ha : s.atlas_mongo_db with
    | none =>
      rw [ha] at h
      simp at h
    | some atlas => rfl
  · intro s h
    unfold App.sync_offline_data
    rw [h]

end Mushroom
